import Mathlib

/-!
Verification of the resumable batch pipeline in `fetch_python_docs.py` and
`translate_python_docs.py` (Python_Docs_Generator).

The Python code is shallowly embedded: Python dicts become insertion-ordered
association lists, Python sets become duplicate-free lists, the filesystem
becomes a partial map from path strings to contents, exceptions become
explicit `Except`/sum results, and a JSON document becomes an inductive tree.
Every definition follows the corresponding source function line by line; the
source file and line numbers are cited in the doc comments.
-/

set_option autoImplicit false

namespace PyDocs

/-! ## JSON values

Model of a parsed Python JSON document (`json.loads` output): `null`, `bool`,
`int`, `str`, `list`, `dict`.  Floats do not occur in any state file the
programs write, so numbers are modelled as integers. -/

inductive J where
  | null
  | bool (b : Bool)
  | num (n : Int)
  | str (s : String)
  | arr (xs : List J)
  | obj (kvs : List (String × J))

/-- Python `data.get(k, dflt)` on a dict, modelled on the insertion-ordered
entry list of a `J.obj`. -/
def jget (kvs : List (String × J)) (k : String) (dflt : J) : J :=
  match kvs.lookup k with
  | some v => v
  | none => dflt

/-! ## FetchState (fetch_python_docs.py lines 57-87)

`completed_urls` is a Python list (append with membership guard keeps it
duplicate-free), `failed_urls` a Python dict (insertion-ordered, unique
keys), `error_info` the structured last-error record. -/

structure ErrorInfo where
  url : String
  error : String
  traceback : String
deriving DecidableEq

structure FetchState where
  completed_urls : List String
  failed_urls : List (String × String)
  last_url : Option String
  error_info : Option ErrorInfo
  total_planned : Int
deriving DecidableEq

def emptyFetchState : FetchState :=
  { completed_urls := []
    failed_urls := []
    last_url := none
    error_info := none
    total_planned := 0 }

/-- Python dict assignment `m[k] = v`: update in place if the key exists
(position preserved), else append a new entry (fetch_python_docs.py line 82). -/
def dictSet (m : List (String × String)) (k v : String) : List (String × String) :=
  if m.any (fun kv => kv.1 == k) then
    m.map (fun kv => if kv.1 == k then (k, v) else kv)
  else
    m ++ [(k, v)]

/-- `FetchState.should_skip` (fetch_python_docs.py lines 67-69). -/
def shouldSkip (s : FetchState) (u : String) : Bool :=
  s.completed_urls.contains u

/-- `FetchState.mark_completed` (fetch_python_docs.py lines 71-78): append the
url to `completed_urls` unless present, set `last_url`, delete the url from
`failed_urls` (the `if url_path in self.failed_urls: del ...` guard and the
delete together amount to an unconditional key removal), clear `error_info`. -/
def markCompleted (s : FetchState) (u : String) : FetchState :=
  { completed_urls :=
      if s.completed_urls.contains u then s.completed_urls else s.completed_urls ++ [u]
    failed_urls := s.failed_urls.filter (fun kv => !(kv.1 == u))
    last_url := some u
    error_info := none
    total_planned := s.total_planned }

/-- `FetchState.mark_failed` (fetch_python_docs.py lines 80-87): record the
error message under the url key and set the structured `error_info`;
`completed_urls` is not touched. -/
def markFailed (s : FetchState) (u e tb : String) : FetchState :=
  { s with
    failed_urls := dictSet s.failed_urls u e
    error_info := some { url := u, error := e, traceback := tb } }

/-- The completed/failed disjointness property of a state, as a decidable
check: no completed url is a key of the failed map. -/
def disjointOK (s : FetchState) : Bool :=
  s.completed_urls.all (fun u => !(s.failed_urls.any (fun kv => kv.1 == u)))

/-! ## Planner (fetch_python_docs.py lines 340-358)

The planning phase of `main`: seed the work list with the failed urls still
present in the universe (`for u in state.failed_urls: if u in all_urls`),
then walk the universe, skipping urls already selected or already completed,
syncing from disk (`output_path.exists()` becomes the predicate `diskHas`)
via `mark_completed`, and appending the rest.  `save_state` is called after
the loop iff `synced` is nonzero (line 356-357). -/

def retryCandidates (allUrls : List String) (s : FetchState) : List String :=
  s.failed_urls.filterMap (fun kv => if allUrls.contains kv.1 then some kv.1 else none)

def planStep (diskHas : String → Bool) (acc : List String × FetchState × Nat)
    (u : String) : List String × FetchState × Nat :=
  if acc.1.contains u then acc
  else if shouldSkip acc.2.1 u then acc
  else if diskHas u then (acc.1, markCompleted acc.2.1 u, acc.2.2 + 1)
  else (acc.1 ++ [u], acc.2.1, acc.2.2)

def plan (allUrls : List String) (s : FetchState) (diskHas : String → Bool) :
    List String × FetchState × Nat :=
  allUrls.foldl (planStep diskHas) (retryCandidates allUrls s, s, 0)

/-- The planning phase together with the conditional `save_state` call of
lines 356-357: the boolean records whether the synced state is persisted
before the processing loop starts. -/
def planAndMaybeSave (allUrls : List String) (s : FetchState)
    (diskHas : String → Bool) : List String × FetchState × Bool :=
  match plan allUrls s diskHas with
  | (toFetch, s', synced) => (toFetch, s', synced != 0)

/-! ## URL-to-path mapping (fetch_python_docs.py lines 40-54 and 162-174) -/

def SECTION_TO_DIR : List (String × String) :=
  [("whatsnew", "04_WHATSNEW"),
   ("tutorial", "01_TUTORIAL"),
   ("library", "02_LIBRARY"),
   ("reference", "03_LANGUAGE_REFERENCE"),
   ("using", "05_USING"),
   ("howto", "06_HOWTO"),
   ("installing", "07_INSTALLING"),
   ("distributing", "08_DISTRIBUTING"),
   ("extending", "09_EXTENDING"),
   ("c-api", "10_CAPI"),
   ("faq", "11_FAQ"),
   ("license", "12_MISC"),
   ("copyright", "12_MISC")]

/-- `l` starts with `p`, on character lists. -/
def listStartsWith : List Char → List Char → Bool
  | _, [] => true
  | [], _ :: _ => false
  | c :: cs, d :: ds => c == d && listStartsWith cs ds

/-- Python `str.replace(pat, repl)` on character lists: left-to-right,
non-overlapping, every occurrence.  `fuel` bounds the recursion (the input
length suffices because each step consumes at least one character); it only
exists to make the recursion structural. -/
def pyReplaceGo (pat repl : List Char) : Nat → List Char → List Char
  | _, [] => []
  | 0, s => s
  | fuel + 1, c :: cs =>
    if listStartsWith (c :: cs) pat then
      repl ++ pyReplaceGo pat repl fuel (List.drop (pat.length - 1) cs)
    else
      c :: pyReplaceGo pat repl fuel cs

/-- Python `str.replace` (the empty-pattern case never arises here and is
modelled as the identity). -/
def pyReplace (s : String) (pat repl : String) : String :=
  if pat.data.isEmpty then s
  else ⟨pyReplaceGo pat.data repl.data s.data.length s.data⟩

/-- Python `str.split(sep)` for a one-character separator: always returns at
least one (possibly empty) piece, like Python's `"".split("/") == [""]`. -/
def pySplitChar (sep : Char) : List Char → List (List Char)
  | [] => [[]]
  | c :: cs =>
    if c == sep then [] :: pySplitChar sep cs
    else
      match pySplitChar sep cs with
      | [] => [[c]]
      | w :: ws => (c :: w) :: ws

/-- Python `"_".join(parts)` on character lists. -/
def joinUnderscore : List (List Char) → List Char
  | [] => []
  | [w] => w
  | w :: ws => w ++ '_' :: joinUnderscore ws

/-- `_url_to_output_path` (fetch_python_docs.py lines 162-174), returning the
path relative to the output directory.  Python's `str.split("/")` never
returns an empty list, so the `if parts else "index"` branch is dead in both
semantics but kept for fidelity. -/
def urlToOutputPath (urlPath : String) : String :=
  let parts := pySplitChar '/' ((pyReplace urlPath ".html" "").data)
  let sectName : String :=
    match parts with
    | [] => "index"
    | p :: _ => ⟨p⟩
  let name : String :=
    if parts.length < 2 then sectName
    else if parts.length > 1 then ⟨joinUnderscore parts.tail⟩ else "index"
  let dirName := ((SECTION_TO_DIR.lookup sectName).getD "99_OTHER")
  dirName ++ "/" ++ name ++ ".md"

/-! ## State persistence (fetch_python_docs.py lines 117-159)

The state file content as seen by `load_state`: the file may be missing, the
read may raise `OSError`, the text may fail to parse (`json.JSONDecodeError`),
or it parses to a JSON document `j`. -/

inductive FileRead where
  | missing
  | readError
  | badJson
  | parsed (j : J)

/-- An exception escaping `load_state`.  `data.get(...)` on a non-dict JSON
value raises `AttributeError`, which is not in the
`except (json.JSONDecodeError, OSError, TypeError)` tuple. -/
inductive PyExn where
  | attributeError
deriving DecidableEq

/-- The in-memory `FetchState` as built by `load_state`: Python performs no
element-level validation, so the list elements and dict values keep their
JSON types. -/
structure LoadedState where
  completed_urls : List J
  failed_urls : List (String × J)
  last_url : J
  error_info : J
  total_planned : Int

/-- `_safe_int` (fetch_python_docs.py lines 117-122): `int(val)` for `None`,
ints, bools and numeric strings, with `TypeError`/`ValueError` falling back
to the default.  (Python's `int(str)` also strips whitespace and accepts
underscores; no state file written by the program contains such strings.) -/
def safeInt (v : J) (dflt : Int) : Int :=
  match v with
  | .null => dflt
  | .num n => n
  | .bool b => if b then 1 else 0
  | .str s => (s.toInt?).getD dflt
  | .arr _ => dflt
  | .obj _ => dflt

/-- `load_state` (fetch_python_docs.py lines 125-145).  A missing file, an
`OSError` during read, or a JSON parse failure yield the empty state.  A
parsed document is accessed with `data.get(...)`: a dict is read field by
field (list/dict `isinstance` checks replace ill-typed `completed_urls` /
`failed_urls` by empty ones); any non-dict document makes `data.get` raise
`AttributeError`, which the `except` clause does not catch. -/
def loadState (f : FileRead) : Except PyExn LoadedState :=
  match f with
  | .missing => .ok ⟨[], [], .null, .null, 0⟩
  | .readError => .ok ⟨[], [], .null, .null, 0⟩
  | .badJson => .ok ⟨[], [], .null, .null, 0⟩
  | .parsed j =>
    match j with
    | .obj kvs =>
      let completed :=
        match jget kvs "completed_urls" (.arr []) with
        | .arr xs => xs
        | _ => []
      let failed :=
        match jget kvs "failed_urls" (.obj []) with
        | .obj m => m
        | _ => []
      .ok ⟨completed, failed, jget kvs "last_url" .null, jget kvs "error_info" .null,
           safeInt (jget kvs "total_planned" .null) 0⟩
    | _ => .error .attributeError

def jOfOptStr : Option String → J
  | none => .null
  | some s => .str s

def jOfErrorInfo (e : ErrorInfo) : J :=
  .obj [("url", .str e.url), ("error", .str e.error), ("traceback", .str e.traceback)]

def jOfOptErrorInfo : Option ErrorInfo → J
  | none => .null
  | some e => jOfErrorInfo e

/-- The JSON document produced by `save_state` (fetch_python_docs.py lines
148-159): `json.dumps(asdict(state))`.  `json.dumps` followed by `json.loads`
is the identity on this fragment (string keys, string/int/null leaves), so
the document tree itself models the file content. -/
def saveStateJson (s : FetchState) : J :=
  .obj [("completed_urls", .arr (s.completed_urls.map J.str)),
        ("failed_urls", .obj (s.failed_urls.map (fun kv => (kv.1, J.str kv.2)))),
        ("last_url", jOfOptStr s.last_url),
        ("error_info", jOfOptErrorInfo s.error_info),
        ("total_planned", .num s.total_planned)]

/-! ## Translate retry wrapper (translate_python_docs.py lines 29-34, 159-179)

One attempt of `future.result(timeout=REQUEST_TIMEOUT)`: it returns the
translator's result (`None` or a string; the `isinstance(out, str)` guard
makes any non-string behave like `None`), raises the executor's timeout, or
raises some other exception — the `except Exception` clause catches every
exception alike, transport-related or not. -/

inductive AttemptResult where
  | ok (out : Option String)
  | timeout
  | exn (msg : String)

def TRANSLATE_RETRIES : Nat := 3

def REQUEST_TIMEOUT : Nat := 60

/-- The message of the `TimeoutError` built at translate_python_docs.py
line 169. -/
def timeoutMsg : String := "Таймаут запроса (60 сек)"

/-- Whether an attempt outcome takes one of the two `except` branches. -/
def isFailedAttempt : AttemptResult → Bool
  | .ok _ => false
  | .timeout => true
  | .exn _ => true

/-- The `last_err` value recorded by a failed attempt. -/
def attemptErrMsg : AttemptResult → Option String
  | .ok _ => none
  | .timeout => some timeoutMsg
  | .exn m => some m

/-- The loop of `_translate_with_retry` (translate_python_docs.py lines
162-177).  `step n` is the outcome of the `n`-th (0-based) invocation of
`translator.translate`; the result triple is (returned string, number of
invocations performed, final `last_err`).  `fuel` is the number of loop
iterations left, `calls` the invocations so far. -/
def translateWithRetryGo (step : Nat → AttemptResult) (text : String) :
    Nat → Nat → Option String → String × Nat × Option String
  | 0, calls, lastErr => (text, calls, lastErr)
  | fuel + 1, calls, lastErr =>
    match step calls with
    | .ok (some s) => (s, calls + 1, lastErr)
    | .ok none => (text, calls + 1, lastErr)
    | .timeout => translateWithRetryGo step text fuel (calls + 1) (some timeoutMsg)
    | .exn m => translateWithRetryGo step text fuel (calls + 1) (some m)

/-- `_translate_with_retry` (translate_python_docs.py lines 159-179): run up
to `TRANSLATE_RETRIES = 3` attempts; when the budget is exhausted, print the
last error and return the original `text` — no exception is raised and no
failure value is returned. -/
def translateWithRetry (step : Nat → AttemptResult) (text : String) :
    String × Nat × Option String :=
  translateWithRetryGo step text TRANSLATE_RETRIES 0 none

/-- Sorted insertion without duplicates, for modelling Python's
`sorted(completed)` on a set. -/
def insertSorted (x : String) : List String → List String
  | [] => [x]
  | y :: ys => if x = y then y :: ys else if x < y then x :: y :: ys else y :: insertSorted x ys

def sortedSet (l : List String) : List String := l.foldr insertSorted []

/-- The JSON document produced by the translate-side `save_state`
(translate_python_docs.py lines 76-85): `{"completed": sorted(completed)}`.
This is the entire persisted translate state — it has no field in which a
failure could be recorded. -/
def translateSaveJson (completed : List String) : J :=
  .obj [("completed", .arr ((sortedSet completed).map J.str))]

/-! ## Fetch per-item outcome handling (fetch_python_docs.py lines 365-400)

The body of the processing loop, per item: each work-list entry causes
exactly one `fetch_and_save_one` call (there is no retry wrapper in the
fetch pipeline), whose outcome is one of: success, a transport error
(`HTTPError`/`URLError`/`OSError`), a `KeyboardInterrupt`, or an unexpected
exception.  The result is the updated state, whether `save_state` ran, and
what the loop does next. -/

inductive FetchOutcome where
  | ok
  | netErr (msg tb : String)
  | interrupted
  | unexpected (msg tb : String)

inductive FetchControl where
  | nextItem
  | exit130
  | fatal
deriving DecidableEq

def fetchHandleItem (s : FetchState) (u : String) :
    FetchOutcome → FetchState × Bool × FetchControl
  | .ok => (markCompleted s u, true, .nextItem)
  | .netErr m tb => (markFailed s u m tb, true, .nextItem)
  | .interrupted => (s, true, .exit130)
  | .unexpected m tb => (markFailed s u m tb, true, .fatal)

/-! ## Atomic write (fetch_python_docs.py lines 148-159 and 277-283,
translate_python_docs.py lines 260-274)

All three writers follow the same pattern: write the full content to
`path + ".tmp"` (`with_suffix` keeps the original suffix and appends
`".tmp"`), atomically `replace` the destination, and in a `finally` block
unlink the temporary file if it still exists.  The filesystem is a partial
map from paths to contents; `replace` (POSIX rename) is atomic, so the only
failure points are before the rename: partway through writing the temporary
file, or at the rename itself. -/

def FS := String → Option String

def fsUpdate (fs : FS) (p : String) (c : Option String) : FS :=
  fun q => if q = p then c else fs q

def tmpName (dest : String) : String := dest ++ ".tmp"

inductive WriteOutcome where
  | success
  | failMidWrite (written : String)
  | failAtRename

/-- One run of the temporary-file-then-rename writer.  Returns the final
filesystem and whether the write completed (on `false` the exception
propagates to the caller after the `finally` cleanup). -/
def atomicWriteRun (fs : FS) (dest content : String) :
    WriteOutcome → FS × Bool
  | .success =>
    let fs1 := fsUpdate fs (tmpName dest) (some content)
    let fs2 := fsUpdate fs1 dest (some content)
    (fsUpdate fs2 (tmpName dest) none, true)
  | .failMidWrite written =>
    let fs1 := fsUpdate fs (tmpName dest) (some written)
    (fsUpdate fs1 (tmpName dest) none, false)
  | .failAtRename =>
    let fs1 := fsUpdate fs (tmpName dest) (some content)
    (fsUpdate fs1 (tmpName dest) none, false)

/-! ## Cyrillic ratio (translate_python_docs.py lines 107-113) -/

/-- Approximation of Python's Unicode-aware `str.isalpha` covering the
character classes that occur in the pipeline's documents: ASCII letters and
the Cyrillic block.  The theorems below hold for any alphabet predicate. -/
def pyIsAlpha (c : Char) : Bool :=
  c.isAlpha || ('Ѐ' ≤ c && c ≤ 'ӿ')

def isCyrillic (c : Char) : Bool :=
  'Ѐ' ≤ c && c ≤ 'ӿ'

/-- `_cyrillic_ratio` (translate_python_docs.py lines 107-113), with the
exact rational value in place of the Python float (IEEE division of the two
counts rounds this value, which cannot leave `[0, 1]`).  The `if not chars`
guard makes the denominator positive whenever the division is reached. -/
def cyrillicRatio (text : String) : ℚ :=
  let chars := text.data.filter pyIsAlpha
  if chars.isEmpty then 0
  else ((chars.filter isCyrillic).length : ℚ) / (chars.length : ℚ)

end PyDocs

namespace PyDocs

/-! ## Helper lemmas -/

theorem any_key_filter_ne (l : List (String × String)) (k : String) :
    ((l.filter (fun kv => !(kv.1 == k))).any (fun kv => kv.1 == k)) = false := by
  induction l with
  | nil => rfl
  | cons kv tl ih =>
    by_cases h : kv.1 == k
    · simp [List.filter_cons, h, ih]
    · simp [List.filter_cons, h, ih]

theorem disjointOK_eq_true_iff (s : FetchState) :
    disjointOK s = true ↔
      ∀ u ∈ s.completed_urls, ∀ kv ∈ s.failed_urls, kv.1 ≠ u := by
  simp [disjointOK, List.all_eq_true, List.any_eq_true]

theorem mem_dictSet_key (m : List (String × String)) (u e : String)
    (kv : String × String) (h : kv ∈ dictSet m u e) :
    kv.1 = u ∨ ∃ kv' ∈ m, kv'.1 = kv.1 := by
  unfold dictSet at h
  by_cases hm : m.any (fun kv => kv.1 == u)
  · rw [if_pos hm] at h
    rcases List.mem_map.mp h with ⟨kv', hkv', heq⟩
    by_cases hk : kv'.1 == u
    · left
      rw [if_pos hk] at heq
      rw [← heq]
    · right
      rw [if_neg hk] at heq
      exact ⟨kv', hkv', by rw [heq]⟩
  · rw [if_neg hm] at h
    rcases List.mem_append.mp h with h1 | h2
    · right
      exact ⟨kv, h1, rfl⟩
    · left
      have : kv = (u, e) := by simpa using h2
      rw [this]

theorem plan_foldl_shape (diskHas : String → Bool) (us : List String) :
    ∀ (tf : List String) (st : FetchState) (syn : Nat),
      ∃ p, (us.foldl (planStep diskHas) (tf, st, syn)).1 = tf ++ p ∧ p.Sublist us := by
  induction us with
  | nil =>
    intro tf st syn
    exact ⟨[], by simp, List.Sublist.refl _⟩
  | cons u rest ih =>
    intro tf st syn
    rw [List.foldl_cons]
    by_cases h1 : u ∈ tf
    · obtain ⟨p, hp, hs⟩ := ih tf st syn
      exact ⟨p, by simpa [planStep, h1] using hp, hs.cons u⟩
    · by_cases h2 : shouldSkip st u
      · obtain ⟨p, hp, hs⟩ := ih tf st syn
        exact ⟨p, by simpa [planStep, h1, h2] using hp, hs.cons u⟩
      · by_cases h3 : diskHas u
        · obtain ⟨p, hp, hs⟩ := ih tf (markCompleted st u) (syn + 1)
          exact ⟨p, by simpa [planStep, h1, h2, h3] using hp, hs.cons u⟩
        · obtain ⟨p, hp, hs⟩ := ih (tf ++ [u]) st syn
          refine ⟨u :: p, ?_, hs.cons₂ u⟩
          calc (rest.foldl (planStep diskHas) (planStep diskHas (tf, st, syn) u)).1
              = (rest.foldl (planStep diskHas) (tf ++ [u], st, syn)).1 := by
                simp [planStep, h1, h2, h3]
            _ = (tf ++ [u]) ++ p := hp
            _ = tf ++ (u :: p) := by simp

theorem tmpName_ne (dest : String) : dest ≠ tmpName dest := by
  intro h
  have hlen : dest.length = (tmpName dest).length := congrArg String.length h
  have h4 : (tmpName dest).length = dest.length + 4 := by
    have : (".tmp" : String).length = 4 := rfl
    simp [tmpName, String.length_append, this]
  omega

theorem retry_step_fail (step : Nat → AttemptResult) (text : String)
    (fuel calls : Nat) (lastErr : Option String)
    (h : isFailedAttempt (step calls) = true) :
    translateWithRetryGo step text (fuel + 1) calls lastErr =
      translateWithRetryGo step text fuel (calls + 1) (attemptErrMsg (step calls)) := by
  cases hs : step calls with
  | ok o =>
    rw [hs] at h
    simp [isFailedAttempt] at h
  | timeout => simp [translateWithRetryGo, hs, attemptErrMsg]
  | exn m => simp [translateWithRetryGo, hs, attemptErrMsg]

/-! ## Theorems for the claims -/

/-- C1, counterexample: starting from the empty state, the call sequence
`mark_completed "a"; mark_failed "a" "err"` leaves `"a"` both in
`completed_urls` and as a key of `failed_urls`, because `mark_failed`
(fetch_python_docs.py lines 80-87) never removes the key from the completed
list.  The claimed invariant over every call sequence is therefore false. -/
theorem c1_both_sets_counterexample :
    ((markFailed (markCompleted emptyFetchState "a") "a" "err" "").completed_urls.contains "a"
        = true) ∧
    ((markFailed (markCompleted emptyFetchState "a") "a" "err" "").failed_urls.any
        (fun kv => kv.1 == "a") = true) ∧
    disjointOK (markFailed (markCompleted emptyFetchState "a") "a" "err" "") = false := by
  refine ⟨rfl, rfl, rfl⟩

/-- C2: sync-from-disk scenario.  Universe `[p1, p2, p3]`, persisted state has
`completed_urls = [p1]` and no failures, the artifact for `p2` exists on disk
and the one for `p3` does not.  Planning (fetch_python_docs.py lines 340-358)
produces the work list `[p3]` (so the step is not re-run for `p2`), adds `p2`
to the completed list giving `[p1, p2]`, and persists the synchronized state
(`synced = 1 ≠ 0`, hence the `save_state` call at line 357 fires) before the
processing loop starts. -/
theorem c2_sync_from_disk :
    planAndMaybeSave ["p1", "p2", "p3"]
        { completed_urls := ["p1"], failed_urls := [], last_url := none,
          error_info := none, total_planned := 0 }
        (fun u => u == "p2") =
      (["p3"],
       { completed_urls := ["p1", "p2"], failed_urls := [], last_url := some "p2",
         error_info := none, total_planned := 0 },
       true) := by
  rfl

/-- C7, counterexample: with universe `["a", "b"]` and a failed map whose
insertion order is `b` before `a`, the planner's work list is `["b", "a"]` —
the failed-map insertion order — whereas the claim (retry candidates ordered
by the universe) predicts `["a", "b"]`.  The first loop of
fetch_python_docs.py lines 342-344 iterates `state.failed_urls`, not
`all_urls`. -/
theorem c7_order_counterexample :
    (plan ["a", "b"]
        { completed_urls := [], failed_urls := [("b", "e1"), ("a", "e2")],
          last_url := none, error_info := none, total_planned := 0 }
        (fun _ => false)).1 = ["b", "a"] ∧
    (["b", "a"] : List String) ≠ ["a", "b"] := by
  exact ⟨rfl, by decide⟩

/-- C5: `load_state` in fetch_python_docs.py does NOT return for every file
content.  On a state file whose JSON document is a top-level array — `[]` is
valid JSON — `data.get("completed_urls", [])` raises `AttributeError`
(`'list' object has no attribute 'get'`), which the
`except (json.JSONDecodeError, OSError, TypeError)` clause at line 144 does
not catch, so `load_state` raises instead of returning the empty state.  (The
translate-side `load_state`, translate_python_docs.py lines 64-73, guards the
same access with `isinstance(data, dict)`.)  This theorem evaluates the
embedded code at the failing input. -/
theorem c5_load_state_raises_on_json_array :
    loadState (.parsed (J.arr [])) = .error .attributeError := by
  rfl

/-- C8: save/load round trip.  For every `FetchState` (the failed map, being
a Python dict, has no duplicate keys), `load_state` applied to the document
written by `save_state` returns the state unchanged: the completed list, the
failed map's keys and messages, `last_url`, `error_info` and `total_planned`
are all recovered exactly (as their JSON images). -/
theorem c8_save_load_round_trip (s : FetchState)
    (hkeys : (s.failed_urls.map Prod.fst).Nodup) :
    loadState (.parsed (saveStateJson s)) =
      .ok { completed_urls := s.completed_urls.map J.str
            failed_urls := s.failed_urls.map (fun kv => (kv.1, J.str kv.2))
            last_url := jOfOptStr s.last_url
            error_info := jOfOptErrorInfo s.error_info
            total_planned := s.total_planned } := by
  cases s
  rfl

/-- Witness for C8 at a concrete state. -/
theorem c8_save_load_round_trip_witness :
    loadState (.parsed (saveStateJson
      { completed_urls := ["p1"], failed_urls := [("u", "err")],
        last_url := some "p1", error_info := none, total_planned := 2 })) =
      .ok { completed_urls := [J.str "p1"], failed_urls := [("u", J.str "err")],
            last_url := J.str "p1", error_info := J.null, total_planned := 2 } :=
  c8_save_load_round_trip
    { completed_urls := ["p1"], failed_urls := [("u", "err")],
      last_url := some "p1", error_info := none, total_planned := 2 }
    (by decide)

/-- C1 (amended): `mark_failed` leaves the completed list unchanged and
`mark_completed` removes the item's key from the failed map; the
completed/failed disjointness is preserved by `mark_completed`
unconditionally, and by `mark_failed` whenever the failed item is not
already in the completed list — the counterexample shows it is violated the
moment `mark_failed` is applied to a completed key, which `mark_failed`
(fetch_python_docs.py lines 80-87) does nothing to prevent. -/
theorem c1_mark_ops_amended (s : FetchState) (u k e tb : String)
    (hd : disjointOK s = true) (hu : s.completed_urls.contains u = false) :
    (markFailed s u e tb).completed_urls = s.completed_urls ∧
    ((markCompleted s k).failed_urls.any (fun kv => kv.1 == k)) = false ∧
    disjointOK (markCompleted s k) = true ∧
    disjointOK (markFailed s u e tb) = true := by
  have hd' := (disjointOK_eq_true_iff s).mp hd
  have hu' : u ∉ s.completed_urls := by simpa using hu
  refine ⟨rfl, any_key_filter_ne s.failed_urls k, ?_, ?_⟩
  · rw [disjointOK_eq_true_iff]
    intro v hv kv hkv
    have hkv' := List.mem_filter.mp hkv
    have hne : (kv.1 == k) = false := by
      simpa using hkv'.2
    by_cases hc : k ∈ s.completed_urls
    · have hv' : v ∈ s.completed_urls := by
        simpa [markCompleted, hc] using hv
      exact hd' v hv' kv hkv'.1
    · have hv' : v ∈ s.completed_urls ∨ v = k := by
        have := hv
        simp [markCompleted, hc] at this
        rcases this with h | h
        · exact Or.inl h
        · exact Or.inr h
      rcases hv' with h | h
      · exact hd' v h kv hkv'.1
      · rw [h]
        simpa using hne
  · rw [disjointOK_eq_true_iff]
    intro v hv kv hkv
    have hv' : v ∈ s.completed_urls := hv
    rcases mem_dictSet_key s.failed_urls u e kv hkv with h | ⟨kv', hkv', hk⟩
    · rw [h]
      intro huv
      exact hu' (huv ▸ hv')
    · rw [← hk]
      exact hd' v hv' kv' hkv'

/-- Witness for C1 (amended) at a concrete state. -/
theorem c1_mark_ops_amended_witness :
    (markFailed ⟨["c"], [("d", "x")], none, none, 0⟩ "b" "e" "").completed_urls = ["c"] ∧
    ((markCompleted ⟨["c"], [("d", "x")], none, none, 0⟩ "c").failed_urls.any
        (fun kv => kv.1 == "c")) = false ∧
    disjointOK (markCompleted ⟨["c"], [("d", "x")], none, none, 0⟩ "c") = true ∧
    disjointOK (markFailed ⟨["c"], [("d", "x")], none, none, 0⟩ "b" "e" "") = true :=
  c1_mark_ops_amended ⟨["c"], [("d", "x")], none, none, 0⟩ "b" "c" "e" ""
    (by decide) (by decide)

/-- C3, counterexample: a step failing on every attempt.  `_translate_with_retry`
(translate_python_docs.py lines 159-179) performs exactly 3 invocations —
that half of the claim holds — but then RETURNS THE ORIGINAL TEXT as an
ordinary string result, not a failed outcome; and the translate pipeline's
persisted state (translate_python_docs.py lines 76-85) is only
`{"completed": ...}` — it has no failed map in which the last error message
could be recorded. -/
theorem c3_retry_exhaustion_counterexample :
    translateWithRetry (fun _ => .exn "ConnectionError: boom") "hello world" =
      ("hello world", 3, some "ConnectionError: boom") ∧
    translateSaveJson ["02_LIBRARY/os.md"] =
      J.obj [("completed", J.arr [J.str "02_LIBRARY/os.md"])] := by
  exact ⟨rfl, rfl⟩

/-- C3 (amended): when every attempt fails with an error the wrapper treats
as retryable, `_translate_with_retry` invokes the step exactly
`TRANSLATE_RETRIES = 3` times and then returns the original text as a plain
string (no exception, no failure value), with the last attempt's error kept
only in the local `last_err` used for the log line; the persisted translate
state never records a failure. -/
theorem c3_retry_exhaustion_amended (step : Nat → AttemptResult) (text : String)
    (h : ∀ n, isFailedAttempt (step n) = true) :
    translateWithRetry step text = (text, 3, attemptErrMsg (step 2)) := by
  show translateWithRetryGo step text (2 + 1) 0 none = (text, 3, attemptErrMsg (step 2))
  rw [retry_step_fail step text 2 0 none (h 0)]
  show translateWithRetryGo step text (1 + 1) 1 (attemptErrMsg (step 0)) = _
  rw [retry_step_fail step text 1 1 (attemptErrMsg (step 0)) (h 1)]
  show translateWithRetryGo step text (0 + 1) 2 (attemptErrMsg (step 1)) = _
  rw [retry_step_fail step text 0 2 (attemptErrMsg (step 1)) (h 2)]
  rfl

/-- Witness for C3 (amended): every attempt times out. -/
theorem c3_retry_exhaustion_amended_witness :
    translateWithRetry (fun _ => AttemptResult.timeout) "abc" =
      ("abc", 3, some timeoutMsg) :=
  c3_retry_exhaustion_amended (fun _ => AttemptResult.timeout) "abc" (fun _ => rfl)

/-- C4, counterexample: a step raising a non-transport, "programming
invariant violation" style error.  The `except Exception` clause of
`_translate_with_retry` (translate_python_docs.py lines 172-175) catches it
like a transport error, so the step is invoked 3 times, not exactly once as
the claim states: the remaining retry attempts ARE consumed. -/
theorem c4_fatal_retried_counterexample :
    (translateWithRetry (fun _ => .exn "ValueError: invariant violated") "t").2.1 = 3 ∧
    (3 : Nat) ≠ 1 := by
  exact ⟨rfl, by decide⟩

/-- C4 (amended): the two pipelines differ.  In fetch_python_docs.py there is
no retry wrapper — each work-list item leads to exactly one
`fetch_and_save_one` call — and an unexpected exception (lines 388-400) is
recorded with `mark_failed` (persisting the item's key and message in
`failed_urls` and `error_info`), the state is saved, and the run terminates
by re-raising.  In translate_python_docs.py, `_translate_with_retry` retries
a non-transport error exactly like a transport one, consuming all 3
attempts, and `main` continues with the next item. -/
theorem c4_fatal_handling_amended (s : FetchState) (u m tb tx : String) :
    fetchHandleItem s u (.unexpected m tb) = (markFailed s u m tb, true, .fatal) ∧
    (markFailed s u m tb).error_info = some ⟨u, m, tb⟩ ∧
    (translateWithRetry (fun _ => .exn m) tx).2.1 = 3 := by
  exact ⟨rfl, rfl, rfl⟩

/-- C6: the temporary-file-then-rename pattern shared by `save_state`
(fetch_python_docs.py lines 148-159), `fetch_and_save_one` (lines 277-283)
and `translate_md_file` (translate_python_docs.py lines 260-274).  Whatever
happens — success, a failure partway through writing the temporary file, or
a failure at the rename — the temporary file is gone afterwards; on any
failure the destination still holds its previous content; on success it
holds exactly the new content; and in every case the destination holds
either its old content or the full new content, never a partial write. -/
theorem c6_atomic_write (fs : FS) (dest content : String) :
    (∀ w, (atomicWriteRun fs dest content w).1 (tmpName dest) = none) ∧
    (∀ written, (atomicWriteRun fs dest content (.failMidWrite written)).1 dest = fs dest) ∧
    ((atomicWriteRun fs dest content .failAtRename).1 dest = fs dest) ∧
    ((atomicWriteRun fs dest content .success).1 dest = some content) ∧
    (∀ w, (atomicWriteRun fs dest content w).1 dest = fs dest ∨
        (atomicWriteRun fs dest content w).1 dest = some content) := by
  have hne := tmpName_ne dest
  refine ⟨?_, ?_, ?_, ?_, ?_⟩
  · intro w
    cases w <;> simp [atomicWriteRun, fsUpdate]
  · intro written
    simp [atomicWriteRun, fsUpdate, hne]
  · simp [atomicWriteRun, fsUpdate, hne]
  · simp [atomicWriteRun, fsUpdate, hne]
  · intro w
    cases w with
    | success => right; simp [atomicWriteRun, fsUpdate, hne]
    | failMidWrite written => left; simp [atomicWriteRun, fsUpdate, hne]
    | failAtRename => left; simp [atomicWriteRun, fsUpdate, hne]

/-- C7 (amended): for every universe, state and disk predicate, the work list
is the retry candidates — the failed-map keys still present in the universe,
in FAILED-MAP INSERTION ORDER (the first loop of fetch_python_docs.py lines
342-344 iterates `state.failed_urls`, not the universe) — followed by the
newly discovered pending items, which do follow the universe order (they
form a subsequence of the universe). -/
theorem c7_work_list_shape_amended (allUrls : List String) (s : FetchState)
    (diskHas : String → Bool) :
    ∃ pending, (plan allUrls s diskHas).1 = retryCandidates allUrls s ++ pending ∧
      pending.Sublist allUrls := by
  simpa [plan] using plan_foldl_shape diskHas allUrls (retryCandidates allUrls s) s 0

/-- C10: `_cyrillic_ratio` (translate_python_docs.py lines 107-113) is a
total function whose value always lies in `[0, 1]`, and it returns exactly 0
when the input has no alphabetic characters: the `if not chars` guard makes
the division safe (the denominator is the positive count of alphabetic
characters whenever the division is reached).  Totality holds by
construction of the embedding (structural recursion only). -/
theorem c10_cyrillic_ratio_bounds (text : String) :
    0 ≤ cyrillicRatio text ∧ cyrillicRatio text ≤ 1 ∧
    ((text.data.filter pyIsAlpha).isEmpty = true → cyrillicRatio text = 0) := by
  by_cases h : (text.data.filter pyIsAlpha).isEmpty
  · refine ⟨?_, ?_, ?_⟩ <;> simp [cyrillicRatio, h]
  · have hne : text.data.filter pyIsAlpha ≠ [] := by
      intro e
      rw [e] at h
      simp at h
    have hpos : 0 < ((text.data.filter pyIsAlpha).length : ℚ) := by
      exact_mod_cast List.length_pos.mpr hne
    have hle : (((text.data.filter pyIsAlpha).filter isCyrillic).length : ℚ) ≤
        ((text.data.filter pyIsAlpha).length : ℚ) := by
      exact_mod_cast List.length_filter_le _ _
    refine ⟨?_, ?_, ?_⟩
    · rw [cyrillicRatio]
      rw [if_neg h]
      positivity
    · rw [cyrillicRatio]
      rw [if_neg h]
      rw [div_le_one hpos]
      exact hle
    · intro hh
      exact absurd hh h

/-- Witness for C10 on an input with no alphabetic characters. -/
theorem c10_cyrillic_ratio_bounds_witness :
    0 ≤ cyrillicRatio "404!" ∧ cyrillicRatio "404!" ≤ 1 ∧ cyrillicRatio "404!" = 0 :=
  ⟨(c10_cyrillic_ratio_bounds "404!").1,
   (c10_cyrillic_ratio_bounds "404!").2.1,
   (c10_cyrillic_ratio_bounds "404!").2.2 (by decide)⟩

/-- C9: the url paths `library/a_b.html` and `library/a/b.html` are distinct
items but `_url_to_output_path` (fetch_python_docs.py lines 162-174) maps
both to `02_LIBRARY/a_b.md`, because path separators below the section are
flattened with `"_".join`.  Artifact existence on disk therefore does not
uniquely identify one item during the planner's sync-from-disk step. -/
theorem c9_output_path_collision :
    urlToOutputPath "library/a_b.html" = urlToOutputPath "library/a/b.html" ∧
    urlToOutputPath "library/a_b.html" = "02_LIBRARY/a_b.md" ∧
    ("library/a_b.html" : String) ≠ "library/a/b.html" := by
  refine ⟨rfl, rfl, by decide⟩

end PyDocs
